import Mathlib

/-!
Verification development for the TouchVisual frame-processing pipeline
(`src/nodes.py`).  Each node's `process` method is embedded as a Lean
function over an explicit state; frames are rasters of 8-bit samples
modelled as bounded functions, float arithmetic is modelled exactly over
`ℚ`, and the external OpenCV primitives (background subtraction, contour
extraction, native trackers, the Gaussian blur kernel) enter as oracle
inputs since their numerics live outside the repository.  Drawing calls
are recorded as an operation log instead of rasterised pixels.
-/

namespace TouchVisual

/-- A raster frame of 8-bit samples: `h × w × 3` (BGR), row-major.  Only
indices `i < h`, `j < w`, `k < 3` are meaningful. -/
structure FrameN where
  h : ℕ
  w : ℕ
  px : ℕ → ℕ → ℕ → ℕ

/-- A float frame (`astype(np.float32)` buffers), modelled with exact
rational samples. -/
structure FrameQ where
  h : ℕ
  w : ℕ
  px : ℕ → ℕ → ℕ → ℚ

/-- `frame.size` for an `h × w × 3` array. -/
def FrameN.size (f : FrameN) : ℕ := f.h * f.w * 3

/-- `frame.astype(np.float32)` (exact model: no float rounding). -/
def FrameN.toQ (f : FrameN) : FrameQ := ⟨f.h, f.w, fun i j k => (f.px i j k : ℚ)⟩

/-- Equality of 8-bit frames: same shape and same samples at every valid
index (what `==` followed by `.all()` means on two numpy arrays). -/
def frameEqN (a b : FrameN) : Prop :=
  a.h = b.h ∧ a.w = b.w ∧ ∀ i < a.h, ∀ j < a.w, ∀ k < 3, a.px i j k = b.px i j k

/-- Equality of float frames on all valid indices. -/
def frameEqQ (a b : FrameQ) : Prop :=
  a.h = b.h ∧ a.w = b.w ∧ ∀ i < a.h, ∀ j < a.w, ∀ k < 3, a.px i j k = b.px i j k

/-- The constant-color frame: every pixel holds the color `c 0, c 1, c 2`. -/
def constFrame (h w : ℕ) (c : ℕ → ℕ) : FrameN := ⟨h, w, fun _ _ k => c k⟩

/-- C-style float→int conversion (`int(...)`, `astype`): truncation toward
zero. -/
def ratTrunc (q : ℚ) : ℤ := if 0 ≤ q then ⌊q⌋ else -⌊-q⌋

/-- `np.clip(·, 0, 255).astype(np.uint8)` on one sample. -/
def clipToU8 (q : ℚ) : ℕ := (ratTrunc (max 0 (min q 255))).toNat

/-- Clamp a whole float frame back to 8-bit samples. -/
def FrameQ.toU8 (f : FrameQ) : FrameN := ⟨f.h, f.w, fun i j k => clipToU8 (f.px i j k)⟩

/-- numpy broadcasting of one axis: the sizes must agree or one must be 1. -/
def bcastDim (a b : ℕ) : Option ℕ :=
  if a = b then some a else if a = 1 then some b else if b = 1 then some a else none

/-- Index into an axis that may have been broadcast from size 1. -/
def bIdx (dim idx : ℕ) : ℕ := if dim = 1 then 0 else idx

/-- `buffer * decay + frame_f * (1 - decay)` (nodes.py line 25).  numpy
broadcasts the two arrays; shapes that cannot be broadcast together raise
`ValueError`.  The channel axis is 3 on both sides and always broadcasts. -/
def feedbackBlend (d : ℚ) (buf f : FrameQ) : Except String FrameQ :=
  match bcastDim buf.h f.h, bcastDim buf.w f.w with
  | some hh, some ww =>
      .ok ⟨hh, ww, fun i j k =>
        buf.px (bIdx buf.h i) (bIdx buf.w j) k * d
          + f.px (bIdx f.h i) (bIdx f.w j) k * (1 - d)⟩
  | _, _ => .error "operands could not be broadcast together"

/-- `FeedbackNode` state: the decay parameter and the lazily created float
accumulator (nodes.py lines 15-18). -/
structure FeedbackNode where
  decay : ℚ
  buffer : Option FrameQ

/-- `FeedbackNode.process` (nodes.py lines 20-27): convert the frame to
float; if no buffer exists yet copy it in, otherwise blend; output the
clamped 8-bit buffer.  The only shape test in the source is
`self.buffer is None`. -/
def FeedbackNode.process (n : FeedbackNode) (frame : FrameN) :
    Except String (FrameN × FeedbackNode) :=
  let ff := frame.toQ
  match n.buffer with
  | none => .ok (ff.toU8, ⟨n.decay, some ff⟩)
  | some buf =>
      match feedbackBlend n.decay buf ff with
      | .ok b => .ok (b.toU8, ⟨n.decay, some b⟩)
      | .error e => .error e

/-- Feed the same frame to a `FeedbackNode` `m + 1` times and return the
last call's result. -/
def feedbackIter (n : FeedbackNode) (f : FrameN) : ℕ → Except String (FrameN × FeedbackNode)
  | 0 => n.process f
  | m + 1 =>
      match feedbackIter n f m with
      | .ok r => r.2.process f
      | .error e => .error e

/-- `GlowNode` state (nodes.py lines 33-36). -/
structure GlowNode where
  strength : ℚ
  blur_size : ℤ

/-- `cv2.GaussianBlur(frame, (k, k), 0)`.  The kernel's numeric weights are
OpenCV floating point and external to this repository; the smoothing is
therefore taken as an oracle `blur`.  What is modelled is the primitive's
kernel-size validation: with `sigma = 0` the kernel size must be positive
and odd, otherwise OpenCV raises `cv2.error`. -/
def gaussianBlur (blur : FrameN → FrameN) (k : ℤ) (f : FrameN) : Except String FrameN :=
  if 0 < k ∧ k % 2 = 1 then .ok (blur f) else .error "Gaussian kernel size must be positive and odd"

/-- `cv2.addWeighted(a, alpha, b, beta, gamma)` per sample: saturating 8-bit
cast of the weighted sum (rounding to nearest; the library's exact tie
break is external). -/
def addWeightedFrm (a : FrameN) (alpha : ℚ) (b : FrameN) (beta : ℚ) (gamma : ℚ) : FrameN :=
  ⟨a.h, a.w, fun i j k =>
    (max 0 (min (round ((a.px i j k : ℚ) * alpha + (b.px i j k : ℚ) * beta + gamma)) 255)).toNat⟩

/-- `GlowNode.process` (nodes.py lines 38-40): blur at `(blur_size, blur_size)`
with no adjustment of the configured size, then blend the blur on top of the
input at weight `strength`. -/
def GlowNode.process (n : GlowNode) (blur : FrameN → FrameN) (f : FrameN) :
    Except String FrameN :=
  match gaussianBlur blur n.blur_size f with
  | .ok blurred => .ok (addWeightedFrm f 1 blurred n.strength 0)
  | .error e => .error e

/-- `np.roll(plane, s, axis)` read at index `i` of the rolled axis of length
`n`: the sample comes from index `(i - s) mod n`. -/
def rollIdx (s : ℤ) (n : ℕ) (i : ℕ) : ℕ := (((i : ℤ) - s) % (n : ℤ)).toNat

/-- `RGBSplitNode.process` (nodes.py lines 50-54): split BGR planes
(channel 0 = blue, 1 = green, 2 = red), `np.roll` red by `+shift` on axis 1
and blue by `-shift` on axis 0, merge back in BGR order. -/
def rgbSplitProcess (shift : ℤ) (f : FrameN) : FrameN :=
  ⟨f.h, f.w, fun i j k =>
    if k = 0 then f.px (rollIdx (-shift) f.h i) j 0
    else if k = 1 then f.px i j 1
    else f.px i (rollIdx shift f.w j) 2⟩

/-- The effect §4.4 of the spec describes, written from the spec's words:
red cyclically shifted horizontally by `+shift` with wrap-around, blue
cyclically shifted vertically by `-shift` with wrap-around, green left
unshifted.  A horizontal shift by `+s` puts at column `j` the sample from
column `(j - s) mod w`; a vertical shift by `-s` puts at row `i` the sample
from row `(i + s) mod h`. -/
def rgbSplitSpecced (shift : ℤ) (f : FrameN) : FrameN :=
  ⟨f.h, f.w, fun i j k =>
    if k = 0 then f.px ((((i : ℤ) + shift) % (f.h : ℤ)).toNat) j 0
    else if k = 1 then f.px i j 1
    else f.px i ((((j : ℤ) - shift) % (f.w : ℤ)).toNat) 2⟩

/-- A bounding box `(x, y, w, h)` in pixel coordinates. -/
structure BBox where
  x : ℤ
  y : ℤ
  w : ℤ
  h : ℤ
deriving DecidableEq

/-- A point in pixel coordinates. -/
abbrev Pt := ℤ × ℤ

/-- A contour as the tracking code consumes it: its area (`cv2.contourArea`),
its image moments m00, m10, m01 (`cv2.moments`) and its bounding rectangle
(`cv2.boundingRect`).  The pixel outline itself is never inspected. -/
structure Contour where
  area : ℚ
  m00 : ℚ
  m10 : ℚ
  m01 : ℚ
  rect : BBox
deriving DecidableEq

/-- One recorded drawing call on the result frame. -/
inductive DrawOp where
  | line (p q : Pt) (thickness : ℤ)
  | rect (b : BBox)
  | circle (c : Pt) (radius : ℤ)
  | contourOutline (c : Contour)
  | areaText (n : ℤ) (x y : ℤ)
deriving DecidableEq

/-- `ObjectTrackingNode` mutable state (nodes.py lines 61-70).  `tracker`
records whether a native tracker object is held (`self.tracker is not
None`); `bg_init` whether the lazy `bg_subtractor` attribute exists yet.
The native tracker and background model themselves are external OpenCV
state, so their per-frame answers enter `process` as oracle inputs. -/
structure ObjectTrackingNode where
  show_trail : Bool
  trail_length : ℤ
  use_contrib_tracker : Bool
  tracker : Bool
  tracker_initialized : Bool
  bbox : Option BBox
  last_bbox : Option BBox
  trail_points : List Pt
  bg_init : Bool
deriving DecidableEq

/-- `init_tracker` (nodes.py lines 84-108).  In native mode the tracker
construction and `init` may throw; `initOk` is that outcome (the except
branch leaves the node uninitialized with no tracker).  In fallback mode the
box is simply stored. -/
def initTracker (s : ObjectTrackingNode) (b : BBox) (initOk : Bool) : ObjectTrackingNode :=
  if s.use_contrib_tracker then
    if initOk then
      { s with tracker := true, bbox := some b, last_bbox := some b, tracker_initialized := true }
    else
      { s with tracker := false, tracker_initialized := false }
  else
    { s with bbox := some b, last_bbox := some b, tracker_initialized := true }

/-- The centroid `(x + w // 2, y + h // 2)` of a box (Python floor
division). -/
def centerOf (b : BBox) : Pt := (b.x + Int.fdiv b.w 2, b.y + Int.fdiv b.h 2)

/-- The continuity test of nodes.py lines 163-170:
`np.sqrt(dx**2 + dy**2) < 100`, which over the reals is exactly
`dx**2 + dy**2 < 10000`. -/
def closeToLast (lastB newB : BBox) : Bool :=
  let lc := centerOf lastB
  let nc := centerOf newB
  decide ((lc.1 - nc.1) ^ 2 + (lc.2 - nc.2) ^ 2 < 10000)

/-- The fallback branch of nodes.py lines 160-179, given this frame's
auto-detection result: returns the local `success` flag and the new
`last_bbox`.  Note both arms of the `distance < 100` conditional assign
`success = True` and `last_bbox = bbox`, exactly as in the source. -/
def fallbackUpdate (lastB : Option BBox) (detect : Option BBox) : Bool × Option BBox :=
  match detect with
  | some b =>
      match lastB with
      | some lb => if closeToLast lb b then (true, some b) else (true, some b)
      | none => (true, some b)
  | none => (false, lastB)

/-- The trail update of nodes.py lines 188-190: append the centroid, then
pop the single oldest point if the list has outgrown `trail_length`. -/
def trailPush (len : ℤ) (trail : List Pt) (c : Pt) : List Pt :=
  if ((trail ++ [c]).length : ℤ) > len then (trail ++ [c]).tail else trail ++ [c]

/-- The trail rendering loop of nodes.py lines 193-196: a segment between
each pair of consecutive trail points, thickness
`max(1, int(2 * (i / len)))`. -/
def trailLineOps (pts : List Pt) : List DrawOp :=
  ((List.range pts.length).drop 1).map fun i =>
    DrawOp.line (pts.getD (i - 1) (0, 0)) (pts.getD i (0, 0))
      (max 1 (ratTrunc (2 * ((i : ℚ) / (pts.length : ℚ)))))

/-- What one call of `ObjectTrackingNode.process` returns: the (copied)
frame, the node state after the call, and the drawing calls made on the
copy. -/
structure TrackOut where
  frame : Option FrameN
  state : ObjectTrackingNode
  ops : List DrawOp

/-- The tracking block of nodes.py lines 147-209, entered once the node is
initialized.  `ds` holds this frame's remaining `auto_detect_object`
answers (each consultation also touches the background model, recorded in
`bg_init`); `upd` is the native tracker's `(success, bbox)` answer, with a
thrown exception entering as `(false, none)` exactly as the except branch
assigns. -/
def trackUpdate (s : ObjectTrackingNode) (ds : List (Option BBox))
    (upd : Bool × Option BBox) : ObjectTrackingNode × List DrawOp :=
  let (success, bb, s2) :=
    if s.use_contrib_tracker && s.tracker then
      (upd.1, upd.2, s)
    else
      let d := ds.headD none
      let s1 := { s with bg_init := true }
      let r := fallbackUpdate s1.last_bbox d
      (r.1, d, { s1 with last_bbox := r.2 })
  match success, bb with
  | true, some b =>
      let s3 := { s2 with bbox := some b }
      let c := centerOf b
      let (s4, tOps) :=
        if s3.show_trail then
          let tp := trailPush s3.trail_length s3.trail_points c
          ({ s3 with trail_points := tp }, trailLineOps tp)
        else (s3, [])
      (s4, tOps ++ [DrawOp.rect b, DrawOp.circle c 5])
  | _, _ =>
      if !s2.use_contrib_tracker then
        ({ s2 with last_bbox := none }, [])
      else
        ({ s2 with tracker_initialized := false, tracker := false, trail_points := [] }, [])

/-- The auto-initialization block of nodes.py lines 141-144: when the node
is uninitialized, consult auto-detection once (touching the background
model) and initialize the tracker on a candidate; returns the updated state
and the remaining auto-detection answers for this frame. -/
def autoInit (s : ObjectTrackingNode) (ds : List (Option BBox)) (initOk : Bool) :
    ObjectTrackingNode × List (Option BBox) :=
  if !s.tracker_initialized then
    match ds.headD none with
    | some b => (initTracker { s with bg_init := true } b initOk, ds.tail)
    | none => ({ s with bg_init := true }, ds.tail)
  else (s, ds)

/-- `ObjectTrackingNode.process` (nodes.py lines 134-211).  A null or
zero-size frame is returned unchanged before anything else runs.  If the
node is uninitialized it consults auto-detection once and, on a candidate,
initializes; the tracking block then runs whenever the node is (now)
initialized, consuming the next auto-detection answer in fallback mode. -/
def ObjectTrackingNode.process (s : ObjectTrackingNode) (frame : Option FrameN)
    (ds : List (Option BBox)) (initOk : Bool) (upd : Bool × Option BBox) : TrackOut :=
  match frame with
  | none => ⟨none, s, []⟩
  | some f =>
      if f.size = 0 then ⟨some f, s, []⟩
      else
        let p := autoInit s ds initOk
        if p.1.tracker_initialized then
          let r := trackUpdate p.1 p.2 upd
          ⟨some f, r.1, r.2⟩
        else ⟨some f, p.1, []⟩

/-- The oracle inputs of one `process` call on a frame sequence. -/
structure StepIn where
  frame : Option FrameN
  ds : List (Option BBox)
  initOk : Bool
  upd : Bool × Option BBox

/-- Thread the node state through a whole sequence of `process` calls. -/
def processSeq (s : ObjectTrackingNode) : List StepIn → ObjectTrackingNode
  | [] => s
  | st :: rest => processSeq (ObjectTrackingNode.process s st.frame st.ds st.initOk st.upd).state rest

/-- `BlobTrackingNode` state (nodes.py lines 218-225).  `bg_sub` records
whether the lazy background subtractor has been created; the subtractor's
per-frame segmentation is external, so the resulting contour list enters
`process` as an oracle input. -/
structure BlobTrackingNode where
  min_area : ℚ
  max_area : ℚ
  show_contours : Bool
  show_centroids : Bool
  bg_sub : Bool
deriving DecidableEq

/-- Python float division: raises `ZeroDivisionError` on a zero
denominator. -/
def pyDivQ (a b : ℚ) : Except String ℚ :=
  if b = 0 then .error "float division by zero" else .ok (a / b)

/-- The per-contour body of the blob loop (nodes.py lines 254-277): filter
by the inclusive area band, optionally draw the outline, and draw the
centroid marker, bounding rectangle and area label only when the zeroth
moment is nonzero. -/
def blobContourOps (n : BlobTrackingNode) (c : Contour) : Except String (List DrawOp) :=
  if n.min_area ≤ c.area ∧ c.area ≤ n.max_area then
    let outline := if n.show_contours then [DrawOp.contourOutline c] else []
    if c.m00 ≠ 0 then
      match pyDivQ c.m10 c.m00, pyDivQ c.m01 c.m00 with
      | .ok cx, .ok cy =>
          let cent := if n.show_centroids then [DrawOp.circle (ratTrunc cx, ratTrunc cy) 8] else []
          .ok (outline ++ cent ++
            [DrawOp.rect c.rect, DrawOp.areaText (ratTrunc c.area) c.rect.x (c.rect.y - 10)])
      | .error e, _ => .error e
      | _, .error e => .error e
    else .ok outline
  else .ok []

/-- All drawing calls of the blob loop over this frame's contour list, in
order; the first raised error would propagate. -/
def blobOpsAll (n : BlobTrackingNode) : List Contour → Except String (List DrawOp)
  | [] => .ok []
  | c :: cs =>
      match blobContourOps n c, blobOpsAll n cs with
      | .ok o, .ok rest => .ok (o ++ rest)
      | .error e, _ => .error e
      | _, .error e => .error e

/-- What one call of `BlobTrackingNode.process` produces. -/
structure BlobOut where
  frame : Option FrameN
  state : BlobTrackingNode
  ops : List DrawOp

/-- `BlobTrackingNode.process` (nodes.py lines 227-279): return a null or
zero-size frame unchanged at once; otherwise lazily create the background
subtractor, segment (external, yielding `contours`), and run the filtered
drawing loop. -/
def BlobTrackingNode.process (n : BlobTrackingNode) (frame : Option FrameN)
    (contours : List Contour) : Except String BlobOut :=
  match frame with
  | none => .ok ⟨none, n, []⟩
  | some f =>
      if f.size = 0 then .ok ⟨some f, n, []⟩
      else
        let n1 := if n.bg_sub then n else { n with bg_sub := true }
        match blobOpsAll n1 contours with
        | .ok ops => .ok ⟨some f, n1, ops⟩
        | .error e => .error e

/-! ## Helper lemmas -/

theorem rollIdx_zero (n i : ℕ) (h : i < n) : rollIdx 0 n i = i := by
  unfold rollIdx
  rw [sub_zero, Int.emod_eq_of_lt (Int.natCast_nonneg i) (by exact_mod_cast h)]
  simp

theorem fallbackUpdate_some (lastB : Option BBox) (b : BBox) :
    fallbackUpdate lastB (some b) = (true, some b) := by
  cases lastB <;> simp [fallbackUpdate]

theorem blobContourOps_ok (n : BlobTrackingNode) (c : Contour) :
    ∃ o, blobContourOps n c = .ok o := by
  unfold blobContourOps
  by_cases hband : n.min_area ≤ c.area ∧ c.area ≤ n.max_area
  · rw [if_pos hband]
    by_cases hm : c.m00 = 0
    · simp [hm]
    · simp [hm, pyDivQ]
  · rw [if_neg hband]
    exact ⟨[], rfl⟩

theorem blobOpsAll_ok (n : BlobTrackingNode) (cs : List Contour) :
    ∃ o, blobOpsAll n cs = .ok o := by
  induction cs with
  | nil => exact ⟨[], rfl⟩
  | cons c cs ih =>
      obtain ⟨o, ho⟩ := blobContourOps_ok n c
      obtain ⟨rest, hrest⟩ := ih
      exact ⟨o ++ rest, by simp [blobOpsAll, ho, hrest]⟩

theorem trailPush_length_le (len : ℤ) (tr : List Pt) (c : Pt)
    (h : (tr.length : ℤ) ≤ len) : ((trailPush len tr c).length : ℤ) ≤ len := by
  unfold trailPush
  split
  · simpa using h
  · rename_i hgt
    simp only [not_lt, List.length_append, List.length_cons, List.length_nil] at hgt ⊢
    omega

theorem trackUpdate_trail (s : ObjectTrackingNode) (ds : List (Option BBox))
    (upd : Bool × Option BBox) :
    (trackUpdate s ds upd).1.trail_length = s.trail_length ∧
    ((s.trail_points.length : ℤ) ≤ s.trail_length →
      ((trackUpdate s ds upd).1.trail_points.length : ℤ) ≤ s.trail_length) := by
  obtain ⟨su, bb⟩ := upd
  have hz : (s.trail_points.length : ℤ) ≤ s.trail_length → (0 : ℤ) ≤ s.trail_length :=
    fun h => le_trans (by positivity) h
  unfold trackUpdate
  by_cases h1 : (s.use_contrib_tracker && s.tracker) = true
  · have hu : s.use_contrib_tracker = true := ((Bool.and_eq_true _ _).mp h1).1
    rw [if_pos h1]
    cases su with
    | false =>
        cases bb with
        | none =>
            refine ⟨by simp [hu], fun h => ?_⟩
            simpa [hu] using hz h
        | some b =>
            refine ⟨by simp [hu], fun h => ?_⟩
            simpa [hu] using hz h
    | true =>
        cases bb with
        | none =>
            refine ⟨by simp [hu], fun h => ?_⟩
            simpa [hu] using hz h
        | some b =>
            by_cases ht : s.show_trail
            · refine ⟨by simp [ht], fun h => ?_⟩
              simpa [ht] using trailPush_length_le _ _ _ h
            · refine ⟨by simp [ht], fun h => ?_⟩
              simpa [ht] using h
  · rw [if_neg h1]
    cases hd : ds.headD none with
    | some b =>
        simp only [hd, fallbackUpdate_some]
        by_cases ht : s.show_trail
        · refine ⟨by simp [ht], fun h => ?_⟩
          simpa [ht] using trailPush_length_le _ _ _ h
        · refine ⟨by simp [ht], fun h => ?_⟩
          simpa [ht] using h
    | none =>
        by_cases hu : s.use_contrib_tracker
        · refine ⟨by simp [fallbackUpdate, hu], fun h => ?_⟩
          simpa [fallbackUpdate, hu] using hz h
        · refine ⟨by simp [fallbackUpdate, hu], fun h => ?_⟩
          simpa [fallbackUpdate, hu] using h

theorem initTracker_trail (s : ObjectTrackingNode) (b : BBox) (initOk : Bool) :
    (initTracker s b initOk).trail_length = s.trail_length ∧
    (initTracker s b initOk).trail_points = s.trail_points := by
  unfold initTracker
  split_ifs <;> exact ⟨rfl, rfl⟩

theorem autoInit_trail (s : ObjectTrackingNode) (ds : List (Option BBox)) (initOk : Bool) :
    (autoInit s ds initOk).1.trail_length = s.trail_length ∧
    (autoInit s ds initOk).1.trail_points = s.trail_points := by
  unfold autoInit
  by_cases hInit : s.tracker_initialized
  · simp [hInit]
  · cases hd : ds.headD none with
    | some b =>
        simp only [hInit, Bool.not_false, if_true, hd, ite_true, reduceIte]
        exact initTracker_trail { s with bg_init := true } b initOk
    | none =>
        simp [hInit, hd]

theorem process_trail (s : ObjectTrackingNode) (frame : Option FrameN)
    (ds : List (Option BBox)) (initOk : Bool) (upd : Bool × Option BBox) :
    (ObjectTrackingNode.process s frame ds initOk upd).state.trail_length = s.trail_length ∧
    ((s.trail_points.length : ℤ) ≤ s.trail_length →
      ((ObjectTrackingNode.process s frame ds initOk upd).state.trail_points.length : ℤ)
        ≤ s.trail_length) := by
  match frame with
  | none => exact ⟨rfl, fun h => h⟩
  | some f =>
      simp only [ObjectTrackingNode.process]
      by_cases hz : f.size = 0
      · rw [if_pos hz]
        exact ⟨rfl, fun h => h⟩
      · rw [if_neg hz]
        obtain ⟨aL, aP⟩ := autoInit_trail s ds initOk
        split
        · obtain ⟨uL, uP⟩ := trackUpdate_trail (autoInit s ds initOk).1
            (autoInit s ds initOk).2 upd
          refine ⟨by rw [uL, aL], fun h => ?_⟩
          have := uP (by rw [aP, aL]; exact h)
          rwa [aL] at this
        · exact ⟨aL, fun h => by rw [aP]; exact h⟩

theorem processSeq_trail (steps : List StepIn) (s : ObjectTrackingNode)
    (h : (s.trail_points.length : ℤ) ≤ s.trail_length) :
    (processSeq s steps).trail_length = s.trail_length ∧
    ((processSeq s steps).trail_points.length : ℤ) ≤ s.trail_length := by
  induction steps generalizing s with
  | nil => exact ⟨rfl, h⟩
  | cons st rest ih =>
      obtain ⟨hL, hP⟩ := process_trail s st.frame st.ds st.initOk st.upd
      obtain ⟨iL, iP⟩ := ih (ObjectTrackingNode.process s st.frame st.ds st.initOk st.upd).state
        (by rw [hL]; exact hP h)
      exact ⟨by rw [processSeq, iL, hL], by rw [processSeq]; exact le_of_le_of_eq iP hL⟩

theorem bcastDim_self (a : ℕ) : bcastDim a a = some a := by simp [bcastDim]

theorem bIdx_lt {dim i : ℕ} (h : i < dim) : bIdx dim i < dim := by
  unfold bIdx
  split
  · omega
  · exact h

theorem clipToU8_natCast (n : ℕ) (h : n ≤ 255) : clipToU8 (n : ℚ) = n := by
  unfold clipToU8 ratTrunc
  have h1 : (n : ℚ) ≤ 255 := by exact_mod_cast h
  rw [min_eq_left h1, max_eq_right (by positivity), if_pos (by positivity), Int.floor_natCast]
  simp

theorem feedback_step_const (d : ℚ) (h w : ℕ) (c : ℕ → ℕ) (hc : ∀ k, c k ≤ 255)
    (buf : FrameQ) (hbuf : frameEqQ buf (constFrame h w c).toQ) :
    ∃ b, FeedbackNode.process ⟨d, some buf⟩ (constFrame h w c) = .ok (b.toU8, ⟨d, some b⟩) ∧
      frameEqQ b (constFrame h w c).toQ ∧ frameEqN b.toU8 (constFrame h w c) := by
  obtain ⟨hh, hw, hp⟩ := hbuf
  have hh' : buf.h = h := hh
  have hw' : buf.w = w := hw
  have key : ∀ i, i < h → ∀ j, j < w → ∀ k, k < 3 →
      buf.px (bIdx buf.h i) (bIdx buf.w j) k * d + (c k : ℚ) * (1 - d) = (c k : ℚ) := by
    intro i hi j hj k hk
    have hbi : bIdx buf.h i < buf.h := by rw [hh']; exact bIdx_lt hi
    have hbj : bIdx buf.w j < buf.w := by rw [hw']; exact bIdx_lt hj
    have hv := hp (bIdx buf.h i) hbi (bIdx buf.w j) hbj k hk
    rw [hv]
    show (c k : ℚ) * d + (c k : ℚ) * (1 - d) = (c k : ℚ)
    ring
  refine ⟨⟨h, w, fun i j k =>
      buf.px (bIdx buf.h i) (bIdx buf.w j) k * d + (c k : ℚ) * (1 - d)⟩, ?_, ?_, ?_⟩
  · simp only [FeedbackNode.process, feedbackBlend, FrameN.toQ, constFrame, hh', hw',
      bcastDim_self]
  · exact ⟨rfl, rfl, fun i hi j hj k hk => key i hi j hj k hk⟩
  · refine ⟨rfl, rfl, ?_⟩
    intro i hi j hj k hk
    show clipToU8 (buf.px (bIdx buf.h i) (bIdx buf.w j) k * d + (c k : ℚ) * (1 - d)) = c k
    rw [key i hi j hj k hk]
    exact clipToU8_natCast (c k) (hc k)

/-! ## Claim theorems -/

/-- C5: with exact arithmetic, for every decay `d ∈ (0, 1)` a constant
frame `C` (samples ≤ 255) is a fixed point of `FeedbackNode.process`: a
buffer equal to the float of `C` blends to `buffer * d + C * (1 - d) = C`
and clamps back to `C`; and feeding `C` repeatedly from an empty buffer
yields output `C` after every call. -/
theorem feedback_constant_fixed_point (d : ℚ) (hd0 : 0 < d) (hd1 : d < 1)
    (h w : ℕ) (c : ℕ → ℕ) (hc : ∀ k, c k ≤ 255) (m : ℕ) :
    (∀ buf, frameEqQ buf (constFrame h w c).toQ →
      ∃ b, FeedbackNode.process ⟨d, some buf⟩ (constFrame h w c) = .ok (b.toU8, ⟨d, some b⟩) ∧
        frameEqQ b (constFrame h w c).toQ ∧ frameEqN b.toU8 (constFrame h w c)) ∧
    ∃ r, feedbackIter ⟨d, none⟩ (constFrame h w c) m = .ok r ∧
      frameEqN r.1 (constFrame h w c) ∧
      ∃ b, r.2 = ⟨d, some b⟩ ∧ frameEqQ b (constFrame h w c).toQ := by
  constructor
  · exact fun buf hbuf => feedback_step_const d h w c hc buf hbuf
  · induction m with
    | zero =>
        refine ⟨((constFrame h w c).toQ.toU8, ⟨d, some (constFrame h w c).toQ⟩), rfl, ?_,
          (constFrame h w c).toQ, rfl, ⟨rfl, rfl, fun _ _ _ _ _ _ => rfl⟩⟩
        refine ⟨rfl, rfl, ?_⟩
        intro i hi j hj k hk
        show clipToU8 ((c k : ℚ)) = c k
        exact clipToU8_natCast (c k) (hc k)
    | succ m ih =>
        obtain ⟨r, hr, _, b, hrb, hb⟩ := ih
        obtain ⟨b2, hp2, hb2, hout2⟩ := feedback_step_const d h w c hc b hb
        refine ⟨(b2.toU8, ⟨d, some b2⟩), ?_, hout2, b2, rfl, hb2⟩
        simp only [feedbackIter, hr, hrb]
        exact hp2

/-- C5 witness: `d = 1/2`, a 1×1 constant frame of value 7, three calls. -/
theorem feedback_constant_fixed_point_witness :
    (∃ b, FeedbackNode.process ⟨1 / 2, some (constFrame 1 1 fun _ => 7).toQ⟩
        (constFrame 1 1 fun _ => 7) = .ok (b.toU8, ⟨1 / 2, some b⟩) ∧
      frameEqQ b (constFrame 1 1 fun _ => 7).toQ ∧
      frameEqN b.toU8 (constFrame 1 1 fun _ => 7)) ∧
    ∃ r, feedbackIter ⟨1 / 2, none⟩ (constFrame 1 1 fun _ => 7) 2 = .ok r ∧
      frameEqN r.1 (constFrame 1 1 fun _ => 7) ∧
      ∃ b, r.2 = ⟨1 / 2, some b⟩ ∧ frameEqQ b (constFrame 1 1 fun _ => 7).toQ :=
  ⟨(feedback_constant_fixed_point (1 / 2) (by norm_num) (by norm_num) 1 1 (fun _ => 7)
        (fun _ => by norm_num) 2).1 ((constFrame 1 1 fun _ => 7).toQ)
      ⟨rfl, rfl, fun _ _ _ _ _ _ => rfl⟩,
    (feedback_constant_fixed_point (1 / 2) (by norm_num) (by norm_num) 1 1 (fun _ => 7)
        (fun _ => by norm_num) 2).2⟩

/-- C2 (evaluation at the failing input): `FeedbackNode.process` holds a
buffer built from a 2×2×3 frame; the next frame is 4×4×3.  The source
checks only `self.buffer is None`, so the blend runs on mismatched shapes
and numpy raises - the buffer is NOT re-initialized. -/
theorem feedback_dim_mismatch_raises (d : ℚ) :
    FeedbackNode.process ⟨d, some (constFrame 2 2 fun _ => 5).toQ⟩ (constFrame 4 4 fun _ => 7)
      = .error "operands could not be broadcast together" := rfl

/-- C4 (evaluation at the failing input): `GlowNode.process` hands
`blur_size` to the Gaussian blur unchanged; with the even size 2 the blur
primitive's kernel validation fails, whatever the blur oracle and frame -
no rounding-up guard exists in the source. -/
theorem glow_even_kernel_raises (strength : ℚ) (blur : FrameN → FrameN) (f : FrameN) :
    GlowNode.process ⟨strength, 2⟩ blur f
      = .error "Gaussian kernel size must be positive and odd" := rfl

/-- C6: for every frame `F`, `RGBSplitNode` with `shift = 0` is the
identity: splitting into B, G, R planes, rolling each by zero and merging
returns a frame equal to `F`. -/
theorem rgbsplit_zero_shift_identity (F : FrameN) :
    frameEqN (rgbSplitProcess 0 F) F := by
  refine ⟨rfl, rfl, ?_⟩
  intro i hi j hj k hk
  simp only [rgbSplitProcess, neg_zero]
  interval_cases k
  · simp [rollIdx_zero F.h i hi]
  · simp
  · simp [rollIdx_zero F.w j hj]

/-- C6 witness at a concrete 2×3 frame. -/
theorem rgbsplit_zero_shift_identity_witness :
    frameEqN (rgbSplitProcess 0 ⟨2, 3, fun i j k => i + 2 * j + 5 * k⟩)
      ⟨2, 3, fun i j k => i + 2 * j + 5 * k⟩ :=
  rgbsplit_zero_shift_identity ⟨2, 3, fun i j k => i + 2 * j + 5 * k⟩

/-- C7: for every frame and shift, the processed frame equals the
spec-side description: green untouched, red cyclically shifted by `+s`
horizontally, blue cyclically shifted by `-s` vertically; in particular the
green channel of the output equals the green channel of the input at every
valid pixel. -/
theorem rgbsplit_green_unshifted (s : ℤ) (F : FrameN) :
    frameEqN (rgbSplitProcess s F) (rgbSplitSpecced s F) ∧
    ∀ i < F.h, ∀ j < F.w, (rgbSplitProcess s F).px i j 1 = F.px i j 1 := by
  constructor
  · refine ⟨rfl, rfl, ?_⟩
    intro i hi j hj k hk
    simp only [rgbSplitProcess, rgbSplitSpecced, rollIdx]
    interval_cases k
    · rw [sub_neg_eq_add]
    · rfl
    · rfl
  · intro i hi j hj
    rfl

/-- C7 witness at a concrete 2×3 frame with shift 4. -/
theorem rgbsplit_green_unshifted_witness :
    frameEqN (rgbSplitProcess 4 ⟨2, 3, fun i j k => i + 2 * j + 5 * k⟩)
        (rgbSplitSpecced 4 ⟨2, 3, fun i j k => i + 2 * j + 5 * k⟩) ∧
    ∀ i < (2 : ℕ), ∀ j < (3 : ℕ),
      (rgbSplitProcess 4 ⟨2, 3, fun i j k => i + 2 * j + 5 * k⟩).px i j 1
        = (⟨2, 3, fun i j k => i + 2 * j + 5 * k⟩ : FrameN).px i j 1 :=
  rgbsplit_green_unshifted 4 ⟨2, 3, fun i j k => i + 2 * j + 5 * k⟩

/-- C9: a contour inside the area band whose zeroth moment is 0 raises no
division-by-zero (the whole blob pass returns without error on any input),
and for that contour only the optional outline is drawn - no centroid
marker, no bounding rectangle, no area label. -/
theorem blob_zero_moment_guarded (n : BlobTrackingNode) (f : Option FrameN)
    (cs : List Contour) (c : Contour)
    (h1 : n.min_area ≤ c.area) (h2 : c.area ≤ n.max_area) (h3 : c.m00 = 0) :
    (∃ r, BlobTrackingNode.process n f cs = .ok r) ∧
    blobContourOps n c = .ok (if n.show_contours then [DrawOp.contourOutline c] else []) := by
  constructor
  · match f with
    | none => exact ⟨⟨none, n, []⟩, rfl⟩
    | some fr =>
        by_cases hz : fr.size = 0
        · exact ⟨⟨some fr, n, []⟩, by simp [BlobTrackingNode.process, hz]⟩
        · obtain ⟨o, ho⟩ := blobOpsAll_ok (if n.bg_sub then n else { n with bg_sub := true }) cs
          refine ⟨⟨some fr, if n.bg_sub then n else { n with bg_sub := true }, o⟩, ?_⟩
          simp [BlobTrackingNode.process, hz, ho]
  · unfold blobContourOps
    rw [if_pos ⟨h1, h2⟩]
    simp [h3]

/-- C9 witness: a 200-px² contour with zero moments, outline drawing on. -/
theorem blob_zero_moment_guarded_witness :
    (∃ r, BlobTrackingNode.process ⟨100, 50000, true, true, false⟩
        (some (constFrame 2 2 fun _ => 0)) [⟨200, 0, 5, 5, ⟨1, 1, 3, 3⟩⟩] = .ok r) ∧
    blobContourOps ⟨100, 50000, true, true, false⟩ ⟨200, 0, 5, 5, ⟨1, 1, 3, 3⟩⟩
      = .ok (if true then [DrawOp.contourOutline ⟨200, 0, 5, 5, ⟨1, 1, 3, 3⟩⟩] else []) :=
  blob_zero_moment_guarded ⟨100, 50000, true, true, false⟩
    (some (constFrame 2 2 fun _ => 0)) [⟨200, 0, 5, 5, ⟨1, 1, 3, 3⟩⟩]
    ⟨200, 0, 5, 5, ⟨1, 1, 3, 3⟩⟩ (by norm_num) (by norm_num) rfl

/-- C10: a null frame or a zero-size frame is returned unchanged by both
tracking nodes, with no detection consulted, no drawing, and the node state
untouched. -/
theorem tracking_nodes_empty_frame_noop
    (s : ObjectTrackingNode) (n : BlobTrackingNode) (frame : Option FrameN)
    (ds : List (Option BBox)) (initOk : Bool) (upd : Bool × Option BBox) (cs : List Contour)
    (hf : frame = none ∨ ∃ f, frame = some f ∧ f.size = 0) :
    ObjectTrackingNode.process s frame ds initOk upd = ⟨frame, s, []⟩ ∧
    BlobTrackingNode.process n frame cs = .ok ⟨frame, n, []⟩ := by
  rcases hf with rfl | ⟨f, rfl, hz⟩
  · exact ⟨rfl, rfl⟩
  · constructor
    · simp [ObjectTrackingNode.process, hz]
    · simp [BlobTrackingNode.process, hz]

/-- C10 witness: a 0×4 frame (size 0) through both nodes. -/
theorem tracking_nodes_empty_frame_noop_witness :
    ObjectTrackingNode.process ⟨true, 20, false, false, false, none, none, [], false⟩
        (some ⟨0, 4, fun _ _ _ => 0⟩) [some ⟨1, 1, 2, 2⟩] false (false, none)
      = ⟨some ⟨0, 4, fun _ _ _ => 0⟩, ⟨true, 20, false, false, false, none, none, [], false⟩, []⟩ ∧
    BlobTrackingNode.process ⟨100, 50000, true, true, false⟩ (some ⟨0, 4, fun _ _ _ => 0⟩) []
      = .ok ⟨some ⟨0, 4, fun _ _ _ => 0⟩, ⟨100, 50000, true, true, false⟩, []⟩ :=
  tracking_nodes_empty_frame_noop ⟨true, 20, false, false, false, none, none, [], false⟩
    ⟨100, 50000, true, true, false⟩ (some ⟨0, 4, fun _ _ _ => 0⟩) [some ⟨1, 1, 2, 2⟩] false
    (false, none) [] (Or.inr ⟨⟨0, 4, fun _ _ _ => 0⟩, rfl, rfl⟩)

/-- C1: in fallback mode, once the tracker is initialized, any frame on
which auto-detection returns a candidate box is accepted as a successful
tracking update, whatever the distance between the new and previous box
centroids: `fallbackUpdate` answers `(success = true, last_bbox = new box)`
for every previous box, and `process` adopts the new box as both
`last_bbox` and `bbox`. -/
theorem fallback_accepts_any_distance
    (s : ObjectTrackingNode) (f : FrameN) (b : BBox)
    (rest : List (Option BBox)) (initOk : Bool) (upd : Bool × Option BBox)
    (hc : s.use_contrib_tracker = false) (hi : s.tracker_initialized = true)
    (hz : f.size ≠ 0) :
    fallbackUpdate s.last_bbox (some b) = (true, some b) ∧
    (ObjectTrackingNode.process s (some f) (some b :: rest) initOk upd).state.last_bbox = some b ∧
    (ObjectTrackingNode.process s (some f) (some b :: rest) initOk upd).state.bbox = some b ∧
    (ObjectTrackingNode.process s (some f) (some b :: rest) initOk upd).state.tracker_initialized
      = true := by
  refine ⟨fallbackUpdate_some s.last_bbox b, ?_⟩
  simp only [ObjectTrackingNode.process, autoInit, hz, hi, trackUpdate, hc, List.headD_cons,
    fallbackUpdate_some, Bool.not_true, Bool.false_and, if_false, if_true, Bool.false_eq_true,
    ite_false, ite_true, reduceIte]
  by_cases ht : s.show_trail <;> simp [ht]

/-- C1 witness: a detection 700 px away from the previous centroid (far
beyond the 100 px continuity threshold) is still adopted. -/
theorem fallback_accepts_any_distance_witness :
    fallbackUpdate (some ⟨0, 0, 2, 2⟩) (some ⟨500, 500, 2, 2⟩) = (true, some ⟨500, 500, 2, 2⟩) ∧
    (ObjectTrackingNode.process
        ⟨true, 20, false, false, true, some ⟨0, 0, 2, 2⟩, some ⟨0, 0, 2, 2⟩, [], true⟩
        (some (constFrame 2 2 fun _ => 0)) [some ⟨500, 500, 2, 2⟩] false
        (false, none)).state.last_bbox = some ⟨500, 500, 2, 2⟩ ∧
    (ObjectTrackingNode.process
        ⟨true, 20, false, false, true, some ⟨0, 0, 2, 2⟩, some ⟨0, 0, 2, 2⟩, [], true⟩
        (some (constFrame 2 2 fun _ => 0)) [some ⟨500, 500, 2, 2⟩] false
        (false, none)).state.bbox = some ⟨500, 500, 2, 2⟩ ∧
    (ObjectTrackingNode.process
        ⟨true, 20, false, false, true, some ⟨0, 0, 2, 2⟩, some ⟨0, 0, 2, 2⟩, [], true⟩
        (some (constFrame 2 2 fun _ => 0)) [some ⟨500, 500, 2, 2⟩] false
        (false, none)).state.tracker_initialized = true :=
  fallback_accepts_any_distance
    ⟨true, 20, false, false, true, some ⟨0, 0, 2, 2⟩, some ⟨0, 0, 2, 2⟩, [], true⟩
    (constFrame 2 2 fun _ => 0) ⟨500, 500, 2, 2⟩ [] false (false, none) rfl rfl (by decide)

/-- C8 (amended): in fallback mode with the tracker initialized, a frame
with no fresh detection keeps `tracker_initialized = true`, keeps the
current box `bbox` and the trail untouched, draws nothing - but resets
`last_bbox` to `None` (so the next detection is accepted without a
continuity comparison) rather than retaining it. -/
theorem fallback_no_detection_keeps_tracking
    (s : ObjectTrackingNode) (f : FrameN)
    (rest : List (Option BBox)) (initOk : Bool) (upd : Bool × Option BBox)
    (hc : s.use_contrib_tracker = false) (hi : s.tracker_initialized = true)
    (hz : f.size ≠ 0) :
    (ObjectTrackingNode.process s (some f) (none :: rest) initOk upd).state.tracker_initialized
        = true ∧
    (ObjectTrackingNode.process s (some f) (none :: rest) initOk upd).state.bbox = s.bbox ∧
    (ObjectTrackingNode.process s (some f) (none :: rest) initOk upd).state.trail_points
        = s.trail_points ∧
    (ObjectTrackingNode.process s (some f) (none :: rest) initOk upd).state.last_bbox = none ∧
    (ObjectTrackingNode.process s (some f) (none :: rest) initOk upd).ops = [] ∧
    (ObjectTrackingNode.process s (some f) (none :: rest) initOk upd).frame = some f := by
  simp [ObjectTrackingNode.process, autoInit, hz, hi, trackUpdate, hc, fallbackUpdate]

/-- C8 witness: concrete fallback state with a stored box and trail, a
frame with no detection. -/
theorem fallback_no_detection_keeps_tracking_witness :
    (ObjectTrackingNode.process
        ⟨true, 20, false, false, true, some ⟨10, 10, 20, 20⟩, some ⟨10, 10, 20, 20⟩,
          [(20, 20)], true⟩
        (some (constFrame 2 2 fun _ => 0)) [none] false (false, none)).state.tracker_initialized
        = true ∧
    (ObjectTrackingNode.process
        ⟨true, 20, false, false, true, some ⟨10, 10, 20, 20⟩, some ⟨10, 10, 20, 20⟩,
          [(20, 20)], true⟩
        (some (constFrame 2 2 fun _ => 0)) [none] false (false, none)).state.bbox
        = some ⟨10, 10, 20, 20⟩ ∧
    (ObjectTrackingNode.process
        ⟨true, 20, false, false, true, some ⟨10, 10, 20, 20⟩, some ⟨10, 10, 20, 20⟩,
          [(20, 20)], true⟩
        (some (constFrame 2 2 fun _ => 0)) [none] false (false, none)).state.trail_points
        = [(20, 20)] ∧
    (ObjectTrackingNode.process
        ⟨true, 20, false, false, true, some ⟨10, 10, 20, 20⟩, some ⟨10, 10, 20, 20⟩,
          [(20, 20)], true⟩
        (some (constFrame 2 2 fun _ => 0)) [none] false (false, none)).state.last_bbox = none ∧
    (ObjectTrackingNode.process
        ⟨true, 20, false, false, true, some ⟨10, 10, 20, 20⟩, some ⟨10, 10, 20, 20⟩,
          [(20, 20)], true⟩
        (some (constFrame 2 2 fun _ => 0)) [none] false (false, none)).ops = [] ∧
    (ObjectTrackingNode.process
        ⟨true, 20, false, false, true, some ⟨10, 10, 20, 20⟩, some ⟨10, 10, 20, 20⟩,
          [(20, 20)], true⟩
        (some (constFrame 2 2 fun _ => 0)) [none] false (false, none)).frame
        = some (constFrame 2 2 fun _ => 0) :=
  fallback_no_detection_keeps_tracking
    ⟨true, 20, false, false, true, some ⟨10, 10, 20, 20⟩, some ⟨10, 10, 20, 20⟩, [(20, 20)], true⟩
    (constFrame 2 2 fun _ => 0) [] false (false, none) rfl rfl (by decide)

/-- C3 (amended): over any sequence of `process` calls with `trail_length`
left fixed, the length of `trail_points` never exceeds `trail_length` if it
starts within it (`process` itself never changes `trail_length`), and a
centroid inserted while the trail is exactly at capacity evicts the oldest
point first.  When `trail_length` is lowered between calls, one call removes
at most one excess point, so the bound can be exceeded transiently. -/
theorem trail_bounded_for_fixed_length :
    (∀ (s : ObjectTrackingNode) (steps : List StepIn),
        (s.trail_points.length : ℤ) ≤ s.trail_length →
        (processSeq s steps).trail_length = s.trail_length ∧
        ((processSeq s steps).trail_points.length : ℤ) ≤ s.trail_length) ∧
    (∀ (len : ℤ) (tr : List Pt) (c : Pt), (tr.length : ℤ) = len → 0 < len →
        trailPush len tr c = tr.tail ++ [c]) := by
  constructor
  · exact fun s steps h => processSeq_trail steps s h
  · intro len tr c hlen hpos
    unfold trailPush
    rw [if_pos (by simp; omega)]
    match tr, hlen with
    | [], hlen => simp at hlen; omega
    | p :: rest, _ => simp

/-- C3 witness: a two-step fallback run at `trail_length = 2`, and an
eviction at capacity 2. -/
theorem trail_bounded_for_fixed_length_witness :
    ((processSeq ⟨true, 2, false, false, true, some ⟨0, 0, 2, 2⟩, some ⟨0, 0, 2, 2⟩, [], true⟩
          [⟨some (constFrame 2 2 fun _ => 0), [some ⟨0, 0, 2, 2⟩], false, (false, none)⟩,
            ⟨some (constFrame 2 2 fun _ => 0), [some ⟨4, 4, 2, 2⟩], false, (false, none)⟩,
            ⟨some (constFrame 2 2 fun _ => 0), [some ⟨8, 8, 2, 2⟩], false,
              (false, none)⟩]).trail_length = 2 ∧
      ((processSeq ⟨true, 2, false, false, true, some ⟨0, 0, 2, 2⟩, some ⟨0, 0, 2, 2⟩, [], true⟩
          [⟨some (constFrame 2 2 fun _ => 0), [some ⟨0, 0, 2, 2⟩], false, (false, none)⟩,
            ⟨some (constFrame 2 2 fun _ => 0), [some ⟨4, 4, 2, 2⟩], false, (false, none)⟩,
            ⟨some (constFrame 2 2 fun _ => 0), [some ⟨8, 8, 2, 2⟩], false,
              (false, none)⟩]).trail_points.length : ℤ) ≤ 2) ∧
    trailPush 2 [((1 : ℤ), (1 : ℤ)), (5, 5)] (9, 9) = [(5, 5), (9, 9)] :=
  ⟨trail_bounded_for_fixed_length.1
      ⟨true, 2, false, false, true, some ⟨0, 0, 2, 2⟩, some ⟨0, 0, 2, 2⟩, [], true⟩
      [⟨some (constFrame 2 2 fun _ => 0), [some ⟨0, 0, 2, 2⟩], false, (false, none)⟩,
        ⟨some (constFrame 2 2 fun _ => 0), [some ⟨4, 4, 2, 2⟩], false, (false, none)⟩,
        ⟨some (constFrame 2 2 fun _ => 0), [some ⟨8, 8, 2, 2⟩], false, (false, none)⟩]
      (by decide),
    trail_bounded_for_fixed_length.2 2 [((1 : ℤ), (1 : ℤ)), (5, 5)] (9, 9) (by decide) (by decide)⟩

/-- C3 counterexample to the claim as stated: two detections at
`trail_length = 2` fill the trail; after the collaborator lowers
`trail_length` to 1, the next detection pops only one point, leaving 2
trail points - more than the configured length 1. -/
theorem trail_exceeds_shrunk_length :
    (ObjectTrackingNode.process
        { (ObjectTrackingNode.process
              (ObjectTrackingNode.process
                  ⟨true, 2, false, false, true, some ⟨0, 0, 2, 2⟩, some ⟨0, 0, 2, 2⟩, [], true⟩
                  (some (constFrame 2 2 fun _ => 0)) [some ⟨0, 0, 2, 2⟩] false
                  (false, none)).state
              (some (constFrame 2 2 fun _ => 0)) [some ⟨4, 4, 2, 2⟩] false
              (false, none)).state with
          trail_length := 1 }
        (some (constFrame 2 2 fun _ => 0)) [some ⟨8, 8, 2, 2⟩] false
        (false, none)).state.trail_length = 1 ∧
    (ObjectTrackingNode.process
        { (ObjectTrackingNode.process
              (ObjectTrackingNode.process
                  ⟨true, 2, false, false, true, some ⟨0, 0, 2, 2⟩, some ⟨0, 0, 2, 2⟩, [], true⟩
                  (some (constFrame 2 2 fun _ => 0)) [some ⟨0, 0, 2, 2⟩] false
                  (false, none)).state
              (some (constFrame 2 2 fun _ => 0)) [some ⟨4, 4, 2, 2⟩] false
              (false, none)).state with
          trail_length := 1 }
        (some (constFrame 2 2 fun _ => 0)) [some ⟨8, 8, 2, 2⟩] false
        (false, none)).state.trail_points.length = 2 := by
  exact ⟨by decide, by decide⟩

/-- C8 counterexample to the claim as stated: with a previous
`last_bbox = (10, 10, 20, 20)` and no detection this frame, the code does
NOT retain the last bounding box for continuity - `last_bbox` comes out
`None`. -/
theorem fallback_no_detection_last_bbox_cleared :
    (ObjectTrackingNode.process
        ⟨true, 20, false, false, true, some ⟨10, 10, 20, 20⟩, some ⟨10, 10, 20, 20⟩,
          [(20, 20)], true⟩
        (some (constFrame 2 2 fun _ => 0)) [none] false (false, none)).state.last_bbox = none ∧
    (⟨true, 20, false, false, true, some ⟨10, 10, 20, 20⟩, some ⟨10, 10, 20, 20⟩,
        [(20, 20)], true⟩ : ObjectTrackingNode).last_bbox = some ⟨10, 10, 20, 20⟩ := by
  exact ⟨by decide, rfl⟩

end TouchVisual
